import Mathlib

/-!
Shallow embedding of the enproxy `Conn` interface layer (`conn_intf.go` of
the flashlight repository): the HTTP header constants, the default idle
durations, the `Write`/`Read` front ends, `Close`, `isClosed`, and the
unimplemented `net.Conn` surface, together with proofs of the lifecycle
and error-handling properties stated in the design document.
-/

namespace Enproxy

/-- Go error values, as far as this file distinguishes them: `io.EOF` and
anything else carried with its message.  An `Option GoErr` stands for a Go
`error`, with `none` playing the role of `nil`. -/
inductive GoErr where
  | ioEOF : GoErr
  | other : String → GoErr
deriving DecidableEq, Repr

/-- Header constant `X_HTTPCONN_ID` from `conn_intf.go`. -/
def X_HTTPCONN_ID : String := "X-HTTPConn-Id"

/-- Header constant `X_HTTPCONN_DEST_ADDR` from `conn_intf.go`. -/
def X_HTTPCONN_DEST_ADDR : String := "X-HTTPConn-Dest-Addr"

/-- Header constant `X_HTTPCONN_EOF` from `conn_intf.go`. -/
def X_HTTPCONN_EOF : String := "X-HTTPConn-EOF"

/-- Header constant `X_HTTPCONN_PROXY_HOST` from `conn_intf.go`. -/
def X_HTTPCONN_PROXY_HOST : String := "X-HTTPConn-Proxy-Host"

/-- Go `time.Duration` is a signed 64-bit count of nanoseconds; embedded
as `Int` (no arithmetic here comes near 2^63). -/
abbrev Duration := Int

/-- `time.Millisecond` in nanoseconds. -/
def timeMillisecond : Duration := 1000000

/-- `time.Second` in nanoseconds. -/
def timeSecond : Duration := 1000000000

/-- `defaultIdleInterval = 15 * time.Millisecond` from `conn_intf.go`. -/
def defaultIdleInterval : Duration := 15 * timeMillisecond

/-- `defaultIdleTimeout = 70 * time.Second` from `conn_intf.go`. -/
def defaultIdleTimeout : Duration := 70 * timeSecond

/-- The duration fields of `Config` from `conn_intf.go`.  The two injected
functions (`DialProxy`, `NewRequest`) play no role in the claims verified
here and are omitted.  A Go caller that leaves a duration unset leaves it
at the zero value. -/
structure Config where
  idleInterval : Duration
  idleTimeout : Duration
deriving DecidableEq, Repr

/-- Modelled from the spec: the Conn constructor (not under src/) falls
back to `defaultIdleInterval` when `Config.IdleInterval` is left unset
(Go zero value), per "IdleInterval: ... Defaults to 15 milliseconds". -/
def effectiveIdleInterval (cfg : Config) : Duration :=
  if cfg.idleInterval = 0 then defaultIdleInterval else cfg.idleInterval

/-- Modelled from the spec: the Conn constructor (not under src/) falls
back to `defaultIdleTimeout` when `Config.IdleTimeout` is left unset
(Go zero value), per "IdleTimeout: ... defaults to 70 seconds". -/
def effectiveIdleTimeout (cfg : Config) : Duration :=
  if cfg.idleTimeout = 0 then defaultIdleTimeout else cfg.idleTimeout

/-- `rwResponse` from `conn_intf.go`: a response to a read or write,
carrying a byte count and a Go error. -/
structure rwResponse where
  n : Int
  err : Option GoErr
deriving DecidableEq, Repr

/-- The lifecycle state of a `Conn`: the `closed` flag together with the
number of signals each of the three stop channels has received.  The
remaining `Conn` fields (id, address, data channels, pipes) do not enter
the lifecycle claims. -/
structure ConnState where
  closed : Bool
  stopReadSignals : Nat
  stopWriteSignals : Nat
  stopReqSignals : Nat
deriving DecidableEq, Repr

/-- A freshly constructed `Conn`: open, no stop signal sent yet. -/
def initConn : ConnState :=
  { closed := false, stopReadSignals := 0, stopWriteSignals := 0,
    stopReqSignals := 0 }

/-- `Conn.Close` from `conn_intf.go`: under `closedMutex`, when the flag
is not yet set, send one signal on each of `stopReadCh`, `stopWriteCh`
and `stopReqCh` and set `closed`; in every case return `nil`. -/
def close (c : ConnState) : ConnState × Option GoErr :=
  if c.closed then (c, none)
  else
    ({ closed := true
       stopReadSignals := c.stopReadSignals + 1
       stopWriteSignals := c.stopWriteSignals + 1
       stopReqSignals := c.stopReqSignals + 1 }, none)

/-- `Conn.isClosed` from `conn_intf.go`: read the `closed` flag under the
read lock. -/
def isClosed (c : ConnState) : Bool := c.closed

/-- `Conn.Write` from `conn_intf.go`.  The body of `submitWrite` is not
under src/, so its outcome is the boolean `submitOk` (the spec: after
Close no new submission succeeds); `recv` is what a receive on
`writeResponsesCh` yields, `none` meaning the channel was found closed.
The branch structure is that of the source: a refused submission returns
`(0, io.EOF)`, a closed response channel returns `(0, io.EOF)`, and a
received response is returned unmodified. -/
def write (b : List Nat) (submitOk : Bool) (recv : Option rwResponse) :
    Int × Option GoErr :=
  if submitOk then
    match recv with
    | none => (0, some GoErr.ioEOF)
    | some res => (res.n, res.err)
  else (0, some GoErr.ioEOF)

/-- `Conn.Read` from `conn_intf.go`, mirror image of `write` over
`readResponsesCh`; `b` is the caller-owned buffer handed to
`submitRead`. -/
def read (b : List Nat) (submitOk : Bool) (recv : Option rwResponse) :
    Int × Option GoErr :=
  if submitOk then
    match recv with
    | none => (0, some GoErr.ioEOF)
    | some res => (res.n, res.err)
  else (0, some GoErr.ioEOF)

/-- A run of accepted `Write` calls, one per buffer in `bs`, against the
backlog `q` of responses on `writeResponsesCh`.  Go channels deliver in
FIFO order, so the channel is a list consumed from the front: each call
receives the front response. -/
def runWrites : List (List Nat) → List rwResponse → List (Int × Option GoErr)
  | [], _ => []
  | _ :: _, [] => []
  | b :: bs, r :: rest => write b true (some r) :: runWrites bs rest

/-- The operations of the `Conn` front end, as they act on the lifecycle
state. -/
inductive ConnOp where
  | closeOp : ConnOp
  | isClosedOp : ConnOp
  | writeOp (b : List Nat) (submitOk : Bool) (recv : Option rwResponse) : ConnOp
  | readOp (b : List Nat) (submitOk : Bool) (recv : Option rwResponse) : ConnOp
deriving DecidableEq, Repr

/-- Effect of one operation on the lifecycle state.  `Close` is the only
operation that writes the `closed` flag or signals a stop channel:
`isClosed` only reads the flag, and the `Write`/`Read` front ends only
touch the data channels.  (Modelled from the spec for the `submitWrite`/
`submitRead` internals, which are not under src/: per the spec only the
supervisor sets the closed flag.) -/
def applyOp (c : ConnState) : ConnOp → ConnState
  | ConnOp.closeOp => (close c).1
  | ConnOp.isClosedOp => c
  | ConnOp.writeOp _ _ _ => c
  | ConnOp.readOp _ _ _ => c

/-- A whole lifetime of front-end operations, applied in order. -/
def applyOps (c : ConnState) (ops : List ConnOp) : ConnState :=
  List.foldl applyOp c ops

/-- The events in the body of `Conn.Close`, in program order. -/
inductive CloseEvent where
  | lockClosedMutex : CloseEvent
  | unlockClosedMutex : CloseEvent
  | sendStopRead : CloseEvent
  | sendStopWrite : CloseEvent
  | sendStopReq : CloseEvent
  | setClosedFlag : CloseEvent
deriving DecidableEq, Repr

/-- The event trace of one `Close` call in `conn_intf.go`: `Lock`, then —
when the flag was not yet set — the three stop-channel sends and the flag
write, and finally the deferred `Unlock`, which Go runs at return, after
everything else in the body. -/
def closeTrace (alreadyClosed : Bool) : List CloseEvent :=
  if alreadyClosed then
    [CloseEvent.lockClosedMutex, CloseEvent.unlockClosedMutex]
  else
    [CloseEvent.lockClosedMutex, CloseEvent.sendStopRead,
     CloseEvent.sendStopWrite, CloseEvent.sendStopReq,
     CloseEvent.setClosedFlag, CloseEvent.unlockClosedMutex]

/-- Is this event a channel send? -/
def isSend : CloseEvent → Bool
  | CloseEvent.sendStopRead => true
  | CloseEvent.sendStopWrite => true
  | CloseEvent.sendStopReq => true
  | _ => false

/-- Scan a trace keeping the `closedMutex` hold depth; true when some
channel send happens while the mutex is held. -/
def sendsWhileLocked : Nat → List CloseEvent → Bool
  | _, [] => false
  | depth, CloseEvent.lockClosedMutex :: rest => sendsWhileLocked (depth + 1) rest
  | depth, CloseEvent.unlockClosedMutex :: rest => sendsWhileLocked (depth - 1) rest
  | depth, e :: rest =>
    (isSend e && decide (0 < depth)) || sendsWhileLocked depth rest

/-- Does the trace contain a channel send under the closed-flag mutex? -/
def sendsUnderLock (tr : List CloseEvent) : Bool := sendsWhileLocked 0 tr

/-- Outcome of a Go call that may abort the process. -/
inductive GoOutcome (α : Type) where
  | ok : α → GoOutcome α
  | goPanic : String → GoOutcome α

/-- True exactly when the call aborted loudly instead of returning. -/
def isGoPanic {α : Type} : GoOutcome α → Bool
  | GoOutcome.ok _ => false
  | GoOutcome.goPanic _ => true

/-- `net.Addr`, opaque here. -/
structure NetAddr where
  addrString : String
deriving DecidableEq, Repr

/-- Go `time.Time`, opaque here. -/
abbrev GoTime := Int

/-- `Conn.LocalAddr` from `conn_intf.go`: aborts unconditionally. -/
def localAddr (_c : ConnState) : GoOutcome NetAddr :=
  GoOutcome.goPanic "LocalAddr() not implemented"

/-- `Conn.RemoteAddr` from `conn_intf.go`: aborts unconditionally. -/
def remoteAddr (_c : ConnState) : GoOutcome NetAddr :=
  GoOutcome.goPanic "RemoteAddr() not implemented"

/-- `Conn.SetDeadline` from `conn_intf.go`: aborts unconditionally. -/
def setDeadline (_c : ConnState) (_t : GoTime) : GoOutcome (Option GoErr) :=
  GoOutcome.goPanic "SetDeadline not implemented"

/-- `Conn.SetReadDeadline` from `conn_intf.go`: aborts unconditionally. -/
def setReadDeadline (_c : ConnState) (_t : GoTime) : GoOutcome (Option GoErr) :=
  GoOutcome.goPanic "SetReadDeadline not implemented"

/-- `Conn.SetWriteDeadline` from `conn_intf.go`: aborts unconditionally. -/
def setWriteDeadline (_c : ConnState) (_t : GoTime) : GoOutcome (Option GoErr) :=
  GoOutcome.goPanic "SetWriteDeadline not implemented"

/-- The stop-channel counters match the closed flag: one signal each once
closed, none while open. -/
def goodSignals (c : ConnState) : Prop :=
  c.stopReadSignals = (if c.closed then 1 else 0) ∧
  c.stopWriteSignals = (if c.closed then 1 else 0) ∧
  c.stopReqSignals = (if c.closed then 1 else 0)

/- ### Helper lemmas -/

lemma close_fst_closed (c : ConnState) : (close c).1.closed = true := by
  by_cases h : c.closed <;> simp [close, h]

lemma close_of_closed (c : ConnState) (h : c.closed = true) :
    close c = (c, none) := by
  simp [close, h]

lemma applyOps_cons (c : ConnState) (o : ConnOp) (ops : List ConnOp) :
    applyOps c (o :: ops) = applyOps (applyOp c o) ops := rfl

lemma applyOps_closed_iff (ops : List ConnOp) :
    ∀ c : ConnState,
      ((applyOps c ops).closed = true ↔
        (c.closed = true ∨ ConnOp.closeOp ∈ ops)) := by
  induction ops with
  | nil =>
    intro c
    simp [applyOps]
  | cons o rest ih =>
    intro c
    rw [applyOps_cons, ih]
    cases o with
    | closeOp => simp [applyOp, close_fst_closed]
    | isClosedOp => simp [applyOp]
    | writeOp b s r => simp [applyOp]
    | readOp b s r => simp [applyOp]

lemma goodSignals_applyOp (c : ConnState) (o : ConnOp)
    (h : goodSignals c) : goodSignals (applyOp c o) := by
  cases o with
  | closeOp =>
    by_cases hc : c.closed
    · simpa [applyOp, close, hc] using h
    · obtain ⟨h1, h2, h3⟩ := h
      simp [hc] at h1 h2 h3
      simp [applyOp, close, hc, goodSignals, h1, h2, h3]
  | isClosedOp => simpa [applyOp] using h
  | writeOp b s r => simpa [applyOp] using h
  | readOp b s r => simpa [applyOp] using h

lemma goodSignals_applyOps (ops : List ConnOp) :
    ∀ c : ConnState, goodSignals c → goodSignals (applyOps c ops) := by
  induction ops with
  | nil => intro c h; simpa [applyOps] using h
  | cons o rest ih =>
    intro c h
    rw [applyOps_cons]
    exact ih _ (goodSignals_applyOp c o h)

lemma goodSignals_init : goodSignals initConn := by
  refine ⟨?_, ?_, ?_⟩ <;> simp [initConn]

lemma runWrites_take (bs : List (List Nat)) :
    ∀ q : List rwResponse, bs.length ≤ q.length →
      runWrites bs q = (q.take bs.length).map (fun r => (r.n, r.err)) := by
  induction bs with
  | nil =>
    intro q _
    simp [runWrites]
  | cons b bs ih =>
    intro q hk
    cases q with
    | nil => simp at hk
    | cons r rest =>
      have hk2 : bs.length ≤ rest.length := by simpa using hk
      simp [runWrites, write, ih rest hk2]

/- ### Claim theorems -/

/-- C1: after the Conn is closed, `Conn.Write` and `Conn.Read` return
`(0, io.EOF)` for every byte-slice argument, both when the submission is
refused outright and when the response channel has been closed under the
pending caller. -/
theorem write_read_eof_on_refusal_or_closed_channel
    (b : List Nat) (submitOk : Bool) (recv : Option rwResponse)
    (h : submitOk = false ∨ recv = none) :
    write b submitOk recv = (0, some GoErr.ioEOF) ∧
    read b submitOk recv = (0, some GoErr.ioEOF) := by
  rcases h with h | h
  · simp [write, read, h]
  · cases submitOk <;> simp [write, read, h]

/-- Witness for C1 at concrete inputs: a refused submission and a closed
response channel both yield `(0, io.EOF)`. -/
theorem write_read_eof_on_refusal_or_closed_channel_witness :
    (write [104, 105] false (some { n := 2, err := none }) =
        (0, some GoErr.ioEOF)) ∧
    (read [104, 105] true none = (0, some GoErr.ioEOF)) :=
  ⟨(write_read_eof_on_refusal_or_closed_channel [104, 105] false
      (some { n := 2, err := none }) (Or.inl rfl)).1,
   (write_read_eof_on_refusal_or_closed_channel [104, 105] true none
      (Or.inr rfl)).2⟩

/-- C2: `Close` is idempotent.  The first call on an open Conn signals
the three stop channels once each, sets the flag and returns `nil`; a
call on a closed Conn changes nothing and returns `nil`; a second
`Close` after any `Close` is observably a no-op. -/
theorem close_idempotent (c : ConnState) :
    (c.closed = false →
      close c = ({ closed := true
                   stopReadSignals := c.stopReadSignals + 1
                   stopWriteSignals := c.stopWriteSignals + 1
                   stopReqSignals := c.stopReqSignals + 1 }, none)) ∧
    (c.closed = true → close c = (c, none)) ∧
    close (close c).1 = ((close c).1, none) := by
  refine ⟨?_, ?_, ?_⟩
  · intro h; simp [close, h]
  · intro h; simp [close, h]
  · exact close_of_closed _ (close_fst_closed c)

/-- Witness for C2: a fresh Conn, closed twice, ends where one `Close`
put it. -/
theorem close_idempotent_witness :
    close initConn = ({ closed := true, stopReadSignals := 1,
                        stopWriteSignals := 1, stopReqSignals := 1 }, none) ∧
    close (close initConn).1 = ((close initConn).1, none) :=
  ⟨by simpa [initConn] using (close_idempotent initConn).1 rfl,
   (close_idempotent initConn).2.2⟩

/-- C3: across any lifetime of front-end operations starting from a fresh
Conn, each stop channel holds exactly one signal once a `Close` has
occurred and zero before, however many `Close` calls the lifetime
contains. -/
theorem stop_channels_signaled_exactly_once (ops : List ConnOp) :
    (applyOps initConn ops).stopReadSignals =
      (if (applyOps initConn ops).closed then 1 else 0) ∧
    (applyOps initConn ops).stopWriteSignals =
      (if (applyOps initConn ops).closed then 1 else 0) ∧
    (applyOps initConn ops).stopReqSignals =
      (if (applyOps initConn ops).closed then 1 else 0) ∧
    ((applyOps initConn ops).closed = true ↔ ConnOp.closeOp ∈ ops) := by
  have hg := goodSignals_applyOps ops initConn goodSignals_init
  have hc := applyOps_closed_iff ops initConn
  simp [initConn] at hc
  exact ⟨hg.1, hg.2.1, hg.2.2, hc⟩

/-- C4: `LocalAddr`, `RemoteAddr`, `SetDeadline`, `SetReadDeadline` and
`SetWriteDeadline` abort loudly on every call, in every Conn state; none
of them ever returns a value. -/
theorem unimplemented_methods_report_loudly (c : ConnState) (t : GoTime) :
    isGoPanic (localAddr c) = true ∧
    isGoPanic (remoteAddr c) = true ∧
    isGoPanic (setDeadline c t) = true ∧
    isGoPanic (setReadDeadline c t) = true ∧
    isGoPanic (setWriteDeadline c t) = true :=
  ⟨rfl, rfl, rfl, rfl, rfl⟩

/-- C5: the closed flag is monotonic false-to-true: once `isClosed`
reports true, it reports true after any further sequence of Write, Read,
Close and isClosed operations. -/
theorem closed_flag_monotonic (c : ConnState) (ops : List ConnOp)
    (h : isClosed c = true) : isClosed (applyOps c ops) = true := by
  have := (applyOps_closed_iff ops c).2 (Or.inl h)
  simpa [isClosed] using this

/-- Witness for C5: a closed Conn stays closed across a close and a
write. -/
theorem closed_flag_monotonic_witness :
    isClosed (applyOps
      { closed := true, stopReadSignals := 1, stopWriteSignals := 1,
        stopReqSignals := 1 }
      [ConnOp.closeOp, ConnOp.writeOp [104] true none]) = true :=
  closed_flag_monotonic _ _ rfl

/-- C6: contrary to the locking discipline, the `Close` of the source
sends on all three stop channels while `closedMutex` is held (the
deferred unlock runs only at return); the already-closed path performs no
send at all. -/
theorem close_sends_on_stop_channels_under_lock :
    sendsUnderLock (closeTrace false) = true ∧
    sendsUnderLock (closeTrace true) = false := by
  decide

/-- C7: an accepted `Write` returns the received response pair unmodified,
and a run of accepted Writes returns exactly the responses placed on
`writeResponsesCh`, in FIFO order, the n-th completed Write getting the
n-th pair. -/
theorem write_returns_responses_in_order
    (b : List Nat) (res : rwResponse)
    (bs : List (List Nat)) (q : List rwResponse) :
    write b true (some res) = (res.n, res.err) ∧
    (bs.length ≤ q.length →
      runWrites bs q = (q.take bs.length).map (fun r => (r.n, r.err))) :=
  ⟨rfl, fun hk => runWrites_take bs q hk⟩

/-- Witness for C7: two Writes against a three-deep response backlog get
the first two pairs, in order, unmodified. -/
theorem write_returns_responses_in_order_witness :
    runWrites [[1], [2, 3]]
      [{ n := 1, err := none }, { n := 2, err := some GoErr.ioEOF },
       { n := 9, err := none }] =
      [(1, none), (2, some GoErr.ioEOF)] := by
  simpa using
    (write_returns_responses_in_order [] { n := 0, err := none }
      [[1], [2, 3]]
      [{ n := 1, err := none }, { n := 2, err := some GoErr.ioEOF },
       { n := 9, err := none }]).2 (by decide)

/-- C8: the four header names are character for character the strings of
the spec's header table. -/
theorem header_names_exact :
    X_HTTPCONN_ID = "X-HTTPConn-Id" ∧
    X_HTTPCONN_DEST_ADDR = "X-HTTPConn-Dest-Addr" ∧
    X_HTTPCONN_PROXY_HOST = "X-HTTPConn-Proxy-Host" ∧
    X_HTTPCONN_EOF = "X-HTTPConn-EOF" :=
  ⟨rfl, rfl, rfl, rfl⟩

/-- C9: a Config that leaves both durations unset gets exactly
15 milliseconds of idle interval and 70 seconds of idle timeout. -/
theorem default_idle_durations (cfg : Config)
    (hInterval : cfg.idleInterval = 0) (hTimeout : cfg.idleTimeout = 0) :
    effectiveIdleInterval cfg = 15 * timeMillisecond ∧
    effectiveIdleInterval cfg = 15000000 ∧
    effectiveIdleTimeout cfg = 70 * timeSecond ∧
    effectiveIdleTimeout cfg = 70000000000 := by
  refine ⟨?_, ?_, ?_, ?_⟩ <;>
    simp [effectiveIdleInterval, effectiveIdleTimeout, hInterval, hTimeout,
      defaultIdleInterval, defaultIdleTimeout, timeMillisecond, timeSecond]

/-- Witness for C9 at the all-unset Config. -/
theorem default_idle_durations_witness :
    effectiveIdleInterval { idleInterval := 0, idleTimeout := 0 } = 15000000 ∧
    effectiveIdleTimeout { idleInterval := 0, idleTimeout := 0 } = 70000000000 :=
  ⟨(default_idle_durations { idleInterval := 0, idleTimeout := 0 }
      rfl rfl).2.1,
   (default_idle_durations { idleInterval := 0, idleTimeout := 0 }
      rfl rfl).2.2.2⟩

/-- C10: `Close` returns `nil` on every invocation, first or repeated,
whatever the Conn state. -/
theorem close_returns_nil (c : ConnState) : (close c).2 = none := by
  by_cases h : c.closed <;> simp [close, h]

end Enproxy
